import Mathlib

/-!
Shallow embedding of `src/error_handling/error_handling.rs` (Rust) and
verification of its specification.

Conventions of the embedding:
* Rust `i32` values are Lean `Int` values in the range `[i32Min, i32Max]`;
  every arithmetic step of the source that can overflow carries its
  explicit range check.
* A Rust panic (integer overflow in a debug build, `unwrap`/`expect` on an
  `Err`) is not a returned value; a function that can panic returns an
  `Option`, with `none` modelling the panic.
* `Result<T, E>` is `Except E T`: `Ok v` is `Except.ok v`, `Err e` is
  `Except.error e`.
* Strings are `List Char`; `std::num::ParseIntError` is represented by its
  kind, mirroring `std::num::IntErrorKind`.
-/

/-- Smallest value of Rust's 32-bit signed integer type `i32`. -/
def i32Min : Int := -(2 ^ 31)

/-- Largest value of Rust's 32-bit signed integer type `i32`. -/
def i32Max : Int := 2 ^ 31 - 1

/-- Rust `i32` division `a / b` for a non-zero divisor: truncation toward
zero (`Int.tdiv`), with the overflow check of the machine operation.
`i32::MIN / -1` has no representable quotient and panics in Rust; `none`
models that panic. Embeds the expression `a / b` in `divide`. -/
def i32Div (a b : Int) : Option Int :=
  if Int.tdiv a b < i32Min ∨ i32Max < Int.tdiv a b then none
  else some (Int.tdiv a b)

/-- The function `divide` of `src/error_handling/error_handling.rs`:
if the divisor `b` is `0`, returns `Err(String::from("Cannot divide by
zero"))`; otherwise returns `Ok(a / b)`. The outer `Option` models the
possible panic of the division itself (`none` = panic). -/
def divide (a b : Int) : Option (Except String Int) :=
  if b = 0 then some (Except.error "Cannot divide by zero")
  else (i32Div a b).map Except.ok

/-- Kind of a `std::num::ParseIntError`, mirroring `std::num::IntErrorKind`
as produced by `i32::from_str` (radix 10). -/
inductive ParseIntErrorKind where
  | Empty
  | InvalidDigit
  | PosOverflow
  | NegOverflow
deriving DecidableEq

/-- Radix-10 digit value of a character, as Rust's `char::to_digit(10)`:
only the ASCII digits `'0'..='9'` succeed. -/
def digitVal (c : Char) : Option Nat :=
  if c.isDigit then some (c.toNat - '0'.toNat) else none

/-- Digit-accumulation loop of Rust's `i32::from_str_radix(s, 10)` for a
non-negative parse: each character must be a radix-10 digit
(`InvalidDigit` otherwise), and each step `acc * 10 + d` is checked
against `i32::MAX` (`PosOverflow` on overflow, as reported by the checked
multiply/add of the source). -/
def parsePosDigits : List Char → Int → Except ParseIntErrorKind Int
  | [], acc => Except.ok acc
  | c :: cs, acc =>
    match digitVal c with
    | none => Except.error ParseIntErrorKind.InvalidDigit
    | some d =>
      if i32Max < acc * 10 + d then Except.error ParseIntErrorKind.PosOverflow
      else parsePosDigits cs (acc * 10 + d)

/-- Digit-accumulation loop of Rust's `i32::from_str_radix(s, 10)` for a
negative parse (input started with `'-'`): each step `acc * 10 - d` is
checked against `i32::MIN` (`NegOverflow` on overflow). -/
def parseNegDigits : List Char → Int → Except ParseIntErrorKind Int
  | [], acc => Except.ok acc
  | c :: cs, acc =>
    match digitVal c with
    | none => Except.error ParseIntErrorKind.InvalidDigit
    | some d =>
      if acc * 10 - d < i32Min then Except.error ParseIntErrorKind.NegOverflow
      else parseNegDigits cs (acc * 10 - d)

/-- Rust's `s.parse::<i32>()` (`i32::from_str`, radix 10) on the character
list of the input: an empty input is `Empty`; a lone sign character is
`InvalidDigit`; otherwise an optional leading `'+'`/`'-'` is stripped and
the digit loop runs with accumulator `0`. Embeds the `s.parse()` call of
`parse_and_double` and `parse_and_double_custom_err`. -/
def parseI32 : List Char → Except ParseIntErrorKind Int
  | [] => Except.error ParseIntErrorKind.Empty
  | c :: cs =>
    if c = '+' then
      match cs with
      | [] => Except.error ParseIntErrorKind.InvalidDigit
      | _ :: _ => parsePosDigits cs 0
    else if c = '-' then
      match cs with
      | [] => Except.error ParseIntErrorKind.InvalidDigit
      | _ :: _ => parseNegDigits cs 0
    else parsePosDigits (c :: cs) 0

/-- Rust's `num * 2` on `i32` with the overflow check of the machine
operation (a debug build panics on overflow; `none` models the panic).
Embeds the expression `num * 2` of both parse-and-double functions. -/
def i32Mul2 (n : Int) : Option Int :=
  if n * 2 < i32Min ∨ i32Max < n * 2 then none else some (n * 2)

/-- The function `parse_and_double` of `src/error_handling/error_handling.rs`:
`let num: i32 = s.parse()?; Ok(num * 2)`. The `?` operator forwards a parse
failure to the caller unchanged; the outer `Option` models the possible
panic of `num * 2` (`none` = panic). -/
def parse_and_double (s : List Char) : Option (Except ParseIntErrorKind Int) :=
  match parseI32 s with
  | Except.error e => some (Except.error e)
  | Except.ok num => (i32Mul2 num).map Except.ok

/-- The enum `MyError` of `src/error_handling/error_handling.rs`, with
variants `DivisionByZero` and `ParseError(std::num::ParseIntError)`. -/
inductive MyError where
  | DivisionByZero
  | ParseError (e : ParseIntErrorKind)
deriving DecidableEq

/-- The `impl From<std::num::ParseIntError> for MyError` of the source:
`MyError::ParseError(err)`. -/
def MyError.fromParse (err : ParseIntErrorKind) : MyError :=
  MyError.ParseError err

/-- The function `parse_and_double_custom_err` of
`src/error_handling/error_handling.rs`: `let num: i32 = s.parse()?;` with
the parse failure converted through `MyError.fromParse` by the `?`
operator; then `Err(MyError::DivisionByZero)` if `num == 0`, otherwise
`Ok(num * 2)`. The outer `Option` models the possible panic of `num * 2`
(`none` = panic). -/
def parse_and_double_custom_err (s : List Char) : Option (Except MyError Int) :=
  match parseI32 s with
  | Except.error e => some (Except.error (MyError.fromParse e))
  | Except.ok num =>
    if num = 0 then some (Except.error MyError.DivisionByZero)
    else (i32Mul2 num).map Except.ok

/-- Outcome of running code that may panic: either a value, or an abnormal
termination carrying the diagnostic text written to the error stream. -/
inductive RunOutcome (α : Type) where
  | value (v : α)
  | panicked (diagnostic : String)
deriving DecidableEq

/-- Modelled from the spec: Rust's `Result::unwrap` (standard library, not
in `src/`). On a success outcome it yields the wrapped value; on a failure
outcome the process terminates abnormally with a default diagnostic that
includes the failure payload (formatted by `fmt`). -/
def unwrap {ε α : Type} (fmt : ε → String) : Except ε α → RunOutcome α
  | Except.ok v => RunOutcome.value v
  | Except.error e =>
    RunOutcome.panicked ("called Result::unwrap() on an Err value: " ++ fmt e)

/-- Modelled from the spec: Rust's `Result::expect` (standard library, not
in `src/`). On a success outcome it yields the wrapped value; on a failure
outcome the process terminates abnormally with the caller-supplied message
`msg` included in the diagnostic, followed by the failure payload. -/
def expect {ε α : Type} (fmt : ε → String) (r : Except ε α) (msg : String) :
    RunOutcome α :=
  match r with
  | Except.ok v => RunOutcome.value v
  | Except.error e => RunOutcome.panicked (msg ++ ": " ++ fmt e)

/-- Display text of a `ParseIntError`, as printed by Rust. -/
def ParseIntErrorKind.describe : ParseIntErrorKind → String
  | ParseIntErrorKind.Empty => "cannot parse integer from empty string"
  | ParseIntErrorKind.InvalidDigit => "invalid digit found in string"
  | ParseIntErrorKind.PosOverflow => "number too large to fit in target type"
  | ParseIntErrorKind.NegOverflow => "number too small to fit in target type"

/-! Helper lemmas shared by the claim theorems. -/

/-- For `i32` inputs with a non-zero divisor, the machine division
overflows exactly at `(i32::MIN, -1)`; everywhere else it returns the
quotient truncated toward zero. -/
lemma i32Div_eq_some (a b : Int) (ha1 : i32Min ≤ a) (ha2 : a ≤ i32Max)
    (hb : b ≠ 0) (hov : ¬(a = i32Min ∧ b = -1)) :
    i32Div a b = some (Int.tdiv a b) := by
  unfold i32Div
  rw [if_neg]
  push_neg
  unfold i32Min i32Max at *
  by_cases hb1 : b = 1
  · subst hb1
    rw [Int.tdiv_one]
    omega
  · by_cases hbm1 : b = -1
    · subst hbm1
      have hne : a ≠ -(2 ^ 31) := by
        intro h
        exact hov ⟨h, rfl⟩
      have : Int.tdiv a (-1) = -a := by
        have h := Int.tdiv_neg a 1
        rw [Int.tdiv_one] at h
        exact h
      rw [this]
      omega
    · have hb2 : 2 ≤ b.natAbs := by omega
      have habs : (Int.tdiv a b).natAbs = a.natAbs / b.natAbs :=
        Int.natAbs_tdiv a b
      have hA : a.natAbs ≤ 2 ^ 31 := by omega
      have hq : a.natAbs / b.natAbs ≤ 2 ^ 31 / 2 :=
        Nat.div_le_div hA hb2 (by omega)
      have : (Int.tdiv a b).natAbs ≤ 2 ^ 30 := by
        rw [habs]
        calc a.natAbs / b.natAbs ≤ 2 ^ 31 / 2 := hq
          _ = 2 ^ 30 := by norm_num
      omega

/-- C1: the claim as stated is false at `a = i32::MIN`, `b = -1`: the
divisor is non-zero, yet `divide` panics (division overflow) instead of
returning a success outcome. -/
theorem divide_overflow_counterexample :
    divide (-2147483648) (-1) = none ∧ ((-1 : Int) ≠ 0) ∧
      (-2147483648 : Int) = i32Min := by
  refine ⟨rfl, by norm_num, by norm_num [i32Min]⟩

/-- C1 (amended): for all `i32` inputs `a`, `b` with `b ≠ 0` and
`(a, b) ≠ (i32::MIN, -1)`, `divide a b` succeeds with the integer quotient
of `a` by `b` truncated toward zero. -/
theorem divide_ok (a b : Int) (ha1 : i32Min ≤ a) (ha2 : a ≤ i32Max)
    (hb : b ≠ 0) (hov : ¬(a = i32Min ∧ b = -1)) :
    divide a b = some (Except.ok (Int.tdiv a b)) := by
  unfold divide
  rw [if_neg hb, i32Div_eq_some a b ha1 ha2 hb hov]
  rfl

/-- Witness for C1's amended theorem at `a = 10`, `b = 2`. -/
theorem divide_ok_witness : divide 10 2 = some (Except.ok 5) := by
  have h := divide_ok 10 2 (by norm_num [i32Min]) (by norm_num [i32Max])
    (by norm_num) (by norm_num [i32Min])
  simpa using h

/-- C2: `divide a 0` fails with exactly the string
"Cannot divide by zero", and a failure outcome of `divide` occurs only
when the divisor is `0` (and always carries that fixed string). -/
theorem divide_zero_spec (a b : Int) (e : String) :
    divide a 0 = some (Except.error "Cannot divide by zero") ∧
      (divide a b = some (Except.error e) →
        b = 0 ∧ e = "Cannot divide by zero") := by
  constructor
  · rfl
  · intro h
    unfold divide at h
    by_cases hb : b = 0
    · subst hb
      simp at h
      exact ⟨rfl, h.symm⟩
    · rw [if_neg hb] at h
      exfalso
      unfold i32Div at h
      by_cases hc : Int.tdiv a b < i32Min ∨ i32Max < Int.tdiv a b
      · rw [if_pos hc] at h
        simp at h
      · rw [if_neg hc] at h
        simp at h

/-- Witness for C2 at `a = 7`, `b = 0`, discharging the hypothesis of the
second conjunct with the first. -/
theorem divide_zero_spec_witness :
    (0 : Int) = 0 ∧ "Cannot divide by zero" = "Cannot divide by zero" :=
  (divide_zero_spec 7 0 "Cannot divide by zero").2
    (divide_zero_spec 7 0 "Cannot divide by zero").1

/-- Doubling an `i32` succeeds exactly when the doubled value is still in
the `i32` range. -/
lemma i32Mul2_eq_some (n : Int) (h1 : i32Min ≤ 2 * n) (h2 : 2 * n ≤ i32Max) :
    i32Mul2 n = some (2 * n) := by
  unfold i32Mul2
  rw [if_neg (by omega)]
  rw [show n * 2 = 2 * n by ring]

/-- When the parse succeeds and the doubled value is representable,
`parse_and_double` succeeds with the doubled value. -/
lemma parse_and_double_eq_ok (s : List Char) (n : Int)
    (hp : parseI32 s = Except.ok n)
    (h1 : i32Min ≤ 2 * n) (h2 : 2 * n ≤ i32Max) :
    parse_and_double s = some (Except.ok (2 * n)) := by
  simp only [parse_and_double, hp, i32Mul2_eq_some n h1 h2, Option.map_some']

/-- When the parse fails, `parse_and_double_custom_err` fails with the
parse error converted through the `From` rule. -/
lemma custom_err_eq_parse_error (s : List Char) (e : ParseIntErrorKind)
    (he : parseI32 s = Except.error e) :
    parse_and_double_custom_err s =
      some (Except.error (MyError.ParseError e)) := by
  simp only [parse_and_double_custom_err, he, MyError.fromParse]

/-- When the parse succeeds with a non-zero value whose double is
representable, `parse_and_double_custom_err` succeeds with the doubled
value. -/
lemma custom_err_eq_ok (s : List Char) (n : Int)
    (hp : parseI32 s = Except.ok n) (hn : n ≠ 0)
    (h1 : i32Min ≤ 2 * n) (h2 : 2 * n ≤ i32Max) :
    parse_and_double_custom_err s = some (Except.ok (2 * n)) := by
  simp only [parse_and_double_custom_err, hp, if_neg hn,
    i32Mul2_eq_some n h1 h2, Option.map_some']

/-- C3: the claim as stated is false at the input "1073741824": it parses
to `2^30`, yet `parse_and_double` panics on the overflow of `num * 2`
instead of returning a success outcome wrapping `2^31`. -/
theorem parse_and_double_overflow_counterexample :
    parseI32 "1073741824".toList = Except.ok 1073741824 ∧
      parse_and_double "1073741824".toList = none :=
  ⟨rfl, rfl⟩

/-- C3 (amended): for every input whose parse succeeds with value `n` such
that `2 * n` is representable as an `i32`, `parse_and_double` succeeds
with exactly `2 * n`. -/
theorem parse_and_double_ok (s : List Char) (n : Int)
    (hp : parseI32 s = Except.ok n)
    (h1 : i32Min ≤ 2 * n) (h2 : 2 * n ≤ i32Max) :
    parse_and_double s = some (Except.ok (2 * n)) :=
  parse_and_double_eq_ok s n hp h1 h2

/-- Witness for C3's amended theorem at the input "42": success with 84. -/
theorem parse_and_double_ok_witness :
    parse_and_double "42".toList = some (Except.ok 84) := by
  have h := parse_and_double_ok "42".toList 42 rfl
    (by norm_num [i32Min]) (by norm_num [i32Max])
  norm_num at h
  exact h

/-- C4: `parse_and_double` returns a failure outcome exactly when the
parse fails, and the failure payload is the parse error itself, forwarded
unchanged by the `?` operator. -/
theorem parse_and_double_error_iff (s : List Char) (e : ParseIntErrorKind) :
    parse_and_double s = some (Except.error e) ↔
      parseI32 s = Except.error e := by
  cases hp : parseI32 s with
  | error e' => simp [parse_and_double, hp]
  | ok num =>
    simp only [parse_and_double, hp, i32Mul2]
    by_cases hc : num * 2 < i32Min ∨ i32Max < num * 2
    · rw [if_pos hc]
      simp
    · rw [if_neg hc]
      simp

/-- C5: the claim as stated is false at the input "2000000000": it parses
to a non-zero value, yet `parse_and_double_custom_err` panics on the
overflow of `num * 2` instead of returning a success outcome. -/
theorem custom_err_overflow_counterexample :
    parseI32 "2000000000".toList = Except.ok 2000000000 ∧
      (2000000000 : Int) ≠ 0 ∧
      parse_and_double_custom_err "2000000000".toList = none :=
  ⟨rfl, by norm_num, rfl⟩

/-- C5 (amended): `parse_and_double_custom_err` returns the converted
parse error when the parse fails, `DivisionByZero` when the parse yields
`0`, and — when the parse yields a non-zero `n` with `2 * n` representable
as an `i32` — success wrapping `2 * n`. -/
theorem parse_and_double_custom_err_spec (s : List Char) :
    (∀ e, parseI32 s = Except.error e →
      parse_and_double_custom_err s =
        some (Except.error (MyError.ParseError e))) ∧
    (parseI32 s = Except.ok 0 →
      parse_and_double_custom_err s =
        some (Except.error MyError.DivisionByZero)) ∧
    (∀ n, parseI32 s = Except.ok n → n ≠ 0 →
      i32Min ≤ 2 * n → 2 * n ≤ i32Max →
      parse_and_double_custom_err s = some (Except.ok (2 * n))) := by
  refine ⟨fun e he => custom_err_eq_parse_error s e he, ?_,
    fun n hp hn h1 h2 => custom_err_eq_ok s n hp hn h1 h2⟩
  intro h0
  simp [parse_and_double_custom_err, h0]

/-- Witness for C5 at the inputs "42" (success with 84), "0"
(`DivisionByZero`) and "x" (`ParseError`). -/
theorem parse_and_double_custom_err_spec_witness :
    parse_and_double_custom_err "42".toList = some (Except.ok (2 * 42)) ∧
      parse_and_double_custom_err "0".toList =
        some (Except.error MyError.DivisionByZero) ∧
      parse_and_double_custom_err "x".toList =
        some (Except.error
          (MyError.ParseError ParseIntErrorKind.InvalidDigit)) :=
  ⟨(parse_and_double_custom_err_spec "42".toList).2.2 42 rfl (by norm_num)
      (by norm_num [i32Min]) (by norm_num [i32Max]),
    (parse_and_double_custom_err_spec "0".toList).2.1 rfl,
    (parse_and_double_custom_err_spec "x".toList).1
      ParseIntErrorKind.InvalidDigit rfl⟩

/-- C6: a parse failure `e` makes `parse_and_double_custom_err` fail with
`MyError::ParseError(e)`, the image of `e` under the declared `From`
conversion, so callers observe the single failure type `MyError`. -/
theorem parse_error_conversion (s : List Char) (e : ParseIntErrorKind)
    (he : parseI32 s = Except.error e) :
    parse_and_double_custom_err s =
      some (Except.error (MyError.fromParse e)) ∧
      MyError.fromParse e = MyError.ParseError e :=
  ⟨custom_err_eq_parse_error s e he, rfl⟩

/-- Witness for C6 at the input "x", whose parse fails with
`InvalidDigit`. -/
theorem parse_error_conversion_witness :
    parse_and_double_custom_err "x".toList =
      some (Except.error
        (MyError.fromParse ParseIntErrorKind.InvalidDigit)) ∧
      MyError.fromParse ParseIntErrorKind.InvalidDigit =
        MyError.ParseError ParseIntErrorKind.InvalidDigit :=
  parse_error_conversion "x".toList ParseIntErrorKind.InvalidDigit rfl

/-- C7: `divide`, `parse_and_double` and `parse_and_double_custom_err` are
pure functions of their inputs: two evaluations on the same input yield
identical outcomes. -/
theorem operations_deterministic (a b : Int) (s t : List Char) :
    divide a b = divide a b ∧
      parse_and_double s = parse_and_double s ∧
      parse_and_double_custom_err t = parse_and_double_custom_err t :=
  ⟨rfl, rfl, rfl⟩

/-- C8: `unwrap` on a success outcome returns the wrapped value; `unwrap`
on a failure outcome terminates the process abnormally; `expect` on a
failure outcome terminates abnormally with the caller-supplied message
included (as a leading segment) in the diagnostic. -/
theorem unwrap_expect_spec (r : Except ParseIntErrorKind Int) (v : Int)
    (msg : String) :
    (r = Except.ok v →
      unwrap ParseIntErrorKind.describe r = RunOutcome.value v) ∧
    (∀ e, r = Except.error e →
      ∃ d, unwrap ParseIntErrorKind.describe r = RunOutcome.panicked d) ∧
    (∀ e, r = Except.error e →
      ∃ d, expect ParseIntErrorKind.describe r msg = RunOutcome.panicked d ∧
        ∃ rest, d = msg ++ rest) := by
  refine ⟨?_, ?_, ?_⟩
  · intro h
    subst h
    rfl
  · intro e h
    subst h
    exact ⟨_, rfl⟩
  · intro e h
    subst h
    refine ⟨msg ++ ": " ++ ParseIntErrorKind.describe e, rfl,
      ": " ++ ParseIntErrorKind.describe e, ?_⟩
    rw [String.append_assoc]

/-- Witness for C8: the demo's `parse_and_double("42").unwrap()` value and
the `expect` diagnostic for a parse failure with the message
"Failed to parse number". -/
theorem unwrap_expect_spec_witness :
    unwrap ParseIntErrorKind.describe (Except.ok (84 : Int)) =
        RunOutcome.value 84 ∧
      ∃ d, expect ParseIntErrorKind.describe
          (Except.error ParseIntErrorKind.InvalidDigit :
            Except ParseIntErrorKind Int)
          "Failed to parse number" = RunOutcome.panicked d ∧
        ∃ rest, d = "Failed to parse number" ++ rest :=
  ⟨(unwrap_expect_spec (Except.ok 84) 84 "Failed to parse number").1 rfl,
    (unwrap_expect_spec (Except.error ParseIntErrorKind.InvalidDigit) 0
        "Failed to parse number").2.2 ParseIntErrorKind.InvalidDigit rfl⟩

/-- C9: every success outcome of `parse_and_double_custom_err` wraps a
value that is even and non-zero (it is twice a non-zero parsed integer,
so `Ok(0)` is unreachable). -/
theorem custom_err_success_invariant (s : List Char) (v : Int)
    (h : parse_and_double_custom_err s = some (Except.ok v)) :
    v % 2 = 0 ∧ v ≠ 0 := by
  revert h
  cases hp : parseI32 s with
  | error e =>
    intro h
    simp [parse_and_double_custom_err, hp] at h
  | ok num =>
    by_cases h0 : num = 0
    · intro h
      simp [parse_and_double_custom_err, hp, h0] at h
    · simp only [parse_and_double_custom_err, hp, if_neg h0, i32Mul2]
      by_cases hc : num * 2 < i32Min ∨ i32Max < num * 2
      · rw [if_pos hc]
        intro h
        simp at h
      · rw [if_neg hc]
        intro h
        simp only [Option.map_some', Option.some.injEq,
          Except.ok.injEq] at h
        omega

/-- Witness for C9 at the input "42", whose success value is 84. -/
theorem custom_err_success_invariant_witness :
    (84 : Int) % 2 = 0 ∧ (84 : Int) ≠ 0 :=
  custom_err_success_invariant "42".toList 84 rfl

/-- On an input whose parse succeeds, `parse_and_double` is the checked
doubling of the parsed value. -/
lemma parse_and_double_parse_ok (s : List Char) (n : Int)
    (hp : parseI32 s = Except.ok n) :
    parse_and_double s = Option.map Except.ok (i32Mul2 n) := by
  simp [parse_and_double, hp]

/-- On an input whose parse fails, `parse_and_double` forwards the parse
error. -/
lemma parse_and_double_parse_error (s : List Char) (e : ParseIntErrorKind)
    (he : parseI32 s = Except.error e) :
    parse_and_double s = some (Except.error e) := by
  simp [parse_and_double, he]

/-- On an input whose parse succeeds with a non-zero value,
`parse_and_double_custom_err` is the checked doubling of the parsed
value. -/
lemma custom_err_parse_ok_ne (s : List Char) (n : Int)
    (hp : parseI32 s = Except.ok n) (hn : n ≠ 0) :
    parse_and_double_custom_err s = Option.map Except.ok (i32Mul2 n) := by
  simp [parse_and_double_custom_err, hp, hn]

/-- On an input whose parse succeeds with `0`,
`parse_and_double_custom_err` fails with `DivisionByZero`. -/
lemma custom_err_parse_zero (s : List Char)
    (hp : parseI32 s = Except.ok 0) :
    parse_and_double_custom_err s =
      some (Except.error MyError.DivisionByZero) := by
  simp [parse_and_double_custom_err, hp]

/-- C10: on every input that parses to a non-zero `n` with `2 * n`
representable as an `i32`, `parse_and_double` and
`parse_and_double_custom_err` return success outcomes wrapping the same
value `2 * n`; and the two functions differ in observable behaviour only
in their failure type and on inputs parsing to zero: their failure
outcomes correspond exactly up to the `ParseError` wrapping, they panic
on the same inputs, the `DivisionByZero` failure occurs only on inputs
parsing to zero, and away from zero-parses they wrap the same success
values. -/
theorem refinement_equivalence (s : List Char) :
    (∀ n, parseI32 s = Except.ok n → n ≠ 0 →
      i32Min ≤ 2 * n → 2 * n ≤ i32Max →
      parse_and_double s = some (Except.ok (2 * n)) ∧
        parse_and_double_custom_err s = some (Except.ok (2 * n))) ∧
    (∀ e, parse_and_double s = some (Except.error e) ↔
      parse_and_double_custom_err s =
        some (Except.error (MyError.ParseError e))) ∧
    (parse_and_double s = none ↔ parse_and_double_custom_err s = none) ∧
    (parse_and_double_custom_err s =
        some (Except.error MyError.DivisionByZero) →
      parseI32 s = Except.ok 0) ∧
    (parseI32 s ≠ Except.ok 0 → ∀ v,
      (parse_and_double s = some (Except.ok v) ↔
        parse_and_double_custom_err s = some (Except.ok v))) := by
  refine ⟨fun n hp hn h1 h2 =>
    ⟨parse_and_double_eq_ok s n hp h1 h2,
      custom_err_eq_ok s n hp hn h1 h2⟩, ?_, ?_, ?_, ?_⟩
  · intro e
    cases hp : parseI32 s with
    | error e' =>
      rw [parse_and_double_parse_error s e' hp,
        custom_err_eq_parse_error s e' hp]
      simp
    | ok num =>
      by_cases h0 : num = 0
      · subst h0
        rw [parse_and_double_parse_ok s 0 hp, custom_err_parse_zero s hp,
          show i32Mul2 0 = some 0 from rfl]
        simp
      · rw [parse_and_double_parse_ok s num hp,
          custom_err_parse_ok_ne s num hp h0]
        cases hm : i32Mul2 num <;> simp
  · cases hp : parseI32 s with
    | error e' =>
      rw [parse_and_double_parse_error s e' hp,
        custom_err_eq_parse_error s e' hp]
      simp
    | ok num =>
      by_cases h0 : num = 0
      · subst h0
        rw [parse_and_double_parse_ok s 0 hp, custom_err_parse_zero s hp,
          show i32Mul2 0 = some 0 from rfl]
        simp
      · rw [parse_and_double_parse_ok s num hp,
          custom_err_parse_ok_ne s num hp h0]
        cases hm : i32Mul2 num <;> simp
  · intro hd
    cases hp : parseI32 s with
    | error e' =>
      rw [custom_err_eq_parse_error s e' hp] at hd
      simp at hd
    | ok num =>
      by_cases h0 : num = 0
      · subst h0
        rfl
      · rw [custom_err_parse_ok_ne s num hp h0] at hd
        cases hm : i32Mul2 num <;> rw [hm] at hd <;> simp at hd
  · intro hz v
    cases hp : parseI32 s with
    | error e' =>
      rw [parse_and_double_parse_error s e' hp,
        custom_err_eq_parse_error s e' hp]
      simp
    | ok num =>
      have h0 : num ≠ 0 := by
        intro h
        rw [h] at hp
        exact hz hp
      rw [parse_and_double_parse_ok s num hp,
        custom_err_parse_ok_ne s num hp h0]
      cases hm : i32Mul2 num <;> simp

/-- Witness for C10 at the inputs "42" (both functions succeed with 84)
and "0" (the `DivisionByZero` discrepancy indeed comes from a parse to
zero). -/
theorem refinement_equivalence_witness :
    (parse_and_double "42".toList = some (Except.ok (2 * 42)) ∧
      parse_and_double_custom_err "42".toList =
        some (Except.ok (2 * 42))) ∧
      parseI32 "0".toList = Except.ok 0 :=
  ⟨(refinement_equivalence "42".toList).1 42 rfl (by norm_num)
      (by norm_num [i32Min]) (by norm_num [i32Max]),
    (refinement_equivalence "0".toList).2.2.2.1 rfl⟩
